import Mathlib

/-!
Verification of the Telemetry Connector and Ingestion Pipeline of the
Dev-AI-PM repository. The frontend wizard (frontend/src/pages/OPCUAWizard.tsx)
is embedded directly from its TypeScript source. The backend components
(Source Registry, Ingestion Router, Detection Bridge, Connector Worker) are
not shipped in this source tree; where needed they are modelled from the
specification, as marked on each definition.
-/

namespace Wizard

/-- Status values returned by getStatusForValue in OPCUAWizard.tsx. -/
inductive Status
  | normal
  | warning
  | critical
deriving DecidableEq, Repr

/-- The NodeConfig record of OPCUAWizard.tsx: nodeId, alias, unit, category,
and optional min and max used for gauge display. -/
structure NodeConfig where
  nodeId : String
  aliasName : String
  unit : String
  category : String
  min : Option ℚ
  max : Option ℚ
deriving DecidableEq, Repr

/-- JavaScript number results that the wizard's percentage computation can
produce: a finite value, positive or negative infinity (division of a nonzero
numerator by zero), or NaN (zero divided by zero). Finite arithmetic is
modelled exactly over the rationals. -/
inductive JNum
  | fin (q : ℚ)
  | posInf
  | negInf
  | nan
deriving DecidableEq, Repr

/-- The percentage computed by getStatusForValue:
`((value - min) / (max - min)) * 100` under JavaScript number semantics.
When `max - min = 0` the division follows IEEE rules: positive numerator
gives positive infinity, negative gives negative infinity, zero gives NaN;
multiplying those by 100 leaves them unchanged. -/
def jsPercent (value mn mx : ℚ) : JNum :=
  let num := value - mn
  let den := mx - mn
  if den = 0 then
    if 0 < num then JNum.posInf
    else if num < 0 then JNum.negInf
    else JNum.nan
  else
    JNum.fin (num / den * 100)

/-- JavaScript `>=` against a finite constant: NaN compares false, positive
infinity compares true, negative infinity compares false. -/
def jGe (a : JNum) (c : ℚ) : Bool :=
  match a with
  | JNum.fin x => decide (c ≤ x)
  | JNum.posInf => true
  | JNum.negInf => false
  | JNum.nan => false

/-- getStatusForValue from OPCUAWizard.tsx: looks up the node by alias,
returns normal when the alias is unknown or min or max is undefined,
otherwise computes the percentage of the range and compares it against
90 and 70. -/
def getStatusForValue (nodes : List NodeConfig) (a : String) (value : ℚ) : Status :=
  match nodes.find? (fun n => n.aliasName == a) with
  | none => Status.normal
  | some node =>
    match node.min, node.max with
    | some mn, some mx =>
      let p := jsPercent value mn mx
      if jGe p 90 then Status.critical
      else if jGe p 70 then Status.warning
      else Status.normal
    | _, _ => Status.normal

/-- The shape of one node inside the payload built by buildPayload in
OPCUAWizard.tsx: only node_id, alias, unit and category are emitted. -/
structure PayloadNode where
  node_id : String
  aliasName : String
  unit : Option String
  category : Option String
deriving DecidableEq, Repr

/-- The per-node mapping inside buildPayload: `unit: n.unit || undefined`
and `category: n.category || undefined`, so an empty string becomes
undefined; min and max are not read at all. -/
def toPayloadNode (n : NodeConfig) : PayloadNode :=
  { node_id := n.nodeId
    aliasName := n.aliasName
    unit := if n.unit = "" then none else some n.unit
    category := if n.category = "" then none else some n.category }

/-- The `nodes` field of the payload built by buildPayload: one payload node
per configured node, in configuration order. -/
def buildPayloadNodes (nodes : List NodeConfig) : List PayloadNode :=
  nodes.map toPayloadNode

/-- The slice of the test response kept in the wizard's testResult state. -/
structure TestResult where
  ok : Bool
  logCount : ℕ
  error : Option String
deriving DecidableEq, Repr

/-- The wizard's UI state relevant to the test and activate controls:
the two in-flight flags, the last test result, and the connected flag. -/
structure WizardState where
  isTesting : Bool
  isActivating : Bool
  testResult : Option TestResult
  isConnected : Bool
deriving DecidableEq, Repr

/-- The initial React state of OPCUAWizard: nothing in flight, no test
result, not connected. -/
def initState : WizardState :=
  { isTesting := false, isActivating := false, testResult := none, isConnected := false }

/-- UI events of the wizard: pressing Test Connection, the test request
resolving with a response body or rejecting, pressing Activate and Start,
and the activation request settling. -/
inductive Event
  | clickTest
  | testResolve (r : TestResult)
  | testReject (msg : String)
  | clickActivate
  | activateSettle (ok : Bool)
deriving DecidableEq

/-- Whether the current testResult is a successful test, as read by the
Activate button's disabled attribute `!testResult?.ok`. -/
def okTest (s : WizardState) : Bool :=
  match s.testResult with
  | some r => r.ok
  | none => false

/-- One UI step of OPCUAWizard. Guards transcribe the disabled attributes of
the two buttons: Test is disabled while `isTesting || isActivating`; Activate
is disabled while `isActivating || isTesting || !testResult?.ok`. Effects
transcribe handleTest and handleActivate: handleTest sets isTesting and
clears testResult; a response stores it (on a thrown request, with ok set to
false); handleActivate sets isActivating and on success sets isConnected.
Returns none when the event's control is disabled. -/
def stepW (s : WizardState) : Event → Option WizardState
  | Event.clickTest =>
      if s.isTesting || s.isActivating then none
      else some { s with isTesting := true, testResult := none }
  | Event.testResolve r =>
      if s.isTesting then some { s with isTesting := false, testResult := some r }
      else none
  | Event.testReject m =>
      if s.isTesting then
        some { s with isTesting := false,
                      testResult := some { ok := false, logCount := 0, error := some m } }
      else none
  | Event.clickActivate =>
      if s.isActivating || s.isTesting || !(okTest s) then none
      else some { s with isActivating := true }
  | Event.activateSettle ok =>
      if s.isActivating then
        some { s with isActivating := false, isConnected := s.isConnected || ok }
      else none

/-- Runs a sequence of UI events, failing if any event fires while its
control is disabled. -/
def runW : WizardState → List Event → Option WizardState
  | s, [] => some s
  | s, e :: es =>
    match stepW s e with
    | some s2 => runW s2 es
    | none => none

lemma stepW_clickActivate_okTest {s s2 : WizardState}
    (h : stepW s Event.clickActivate = some s2) : okTest s = true := by
  cases hok : okTest s with
  | true => rfl
  | false => simp [stepW, hok] at h

lemma stepW_okTest_flip {s s2 : WizardState} {e : Event}
    (hok : okTest s = false) (h : stepW s e = some s2) (h2 : okTest s2 = true) :
    ∃ r, e = Event.testResolve r ∧ r.ok = true := by
  cases e with
  | clickTest =>
    by_cases hg : (s.isTesting || s.isActivating) = true
    · simp [stepW, hg] at h
    · simp only [stepW, hg, if_false] at h
      obtain rfl := Option.some.inj h
      simp [okTest] at h2
  | testResolve r =>
    by_cases hg : s.isTesting = true
    · simp only [stepW, hg, if_true] at h
      obtain rfl := Option.some.inj h
      simp only [okTest] at h2
      exact ⟨r, rfl, h2⟩
    · simp [stepW, hg] at h
  | testReject m =>
    by_cases hg : s.isTesting = true
    · simp only [stepW, hg, if_true] at h
      obtain rfl := Option.some.inj h
      simp [okTest] at h2
    · simp [stepW, hg] at h
  | clickActivate =>
    have hh := stepW_clickActivate_okTest h
    rw [hok] at hh
    exact absurd hh (by simp)
  | activateSettle ok =>
    by_cases hg : s.isActivating = true
    · simp only [stepW, hg, if_true] at h
      obtain rfl := Option.some.inj h
      simp only [okTest] at h2
      rw [okTest] at hok
      exact absurd h2 (by rw [hok]; simp)
    · simp [stepW, hg] at h

lemma runW_activate_needs_prior_ok :
    ∀ (evs : List Event) (s s2 : WizardState),
      okTest s = false → runW s evs = some s2 →
      ∀ i : ℕ, evs[i]? = some Event.clickActivate →
      ∃ (j : ℕ) (r : TestResult),
        j < i ∧ evs[j]? = some (Event.testResolve r) ∧ r.ok = true := by
  intro evs
  induction evs with
  | nil =>
    intro s s2 _ _ i hi
    simp at hi
  | cons e es ih =>
    intro s s2 hok hrun i hi
    cases hstep : stepW s e with
    | none => simp [runW, hstep] at hrun
    | some s1 =>
      simp only [runW, hstep] at hrun
      cases i with
      | zero =>
        simp only [List.getElem?_cons_zero, Option.some_inj] at hi
        subst hi
        have := stepW_clickActivate_okTest hstep
        rw [hok] at this
        exact absurd this (by simp)
      | succ i2 =>
        simp only [List.getElem?_cons_succ] at hi
        cases hok1 : okTest s1 with
        | false =>
          obtain ⟨j, r, hj, hget, hr⟩ := ih s1 s2 hok1 hrun i2 hi
          exact ⟨j + 1, r, by omega, by simpa using hget, hr⟩
        | true =>
          obtain ⟨r, he, hr⟩ := stepW_okTest_flip hok hstep hok1
          subst he
          exact ⟨0, r, by omega, by simp, hr⟩

end Wizard

namespace Router

/-- One stored sample row in the sensor_data table: sensor alias, value,
timestamp. -/
structure Row where
  sensorAlias : String
  value : ℚ
  ts : ℕ
deriving DecidableEq, Repr

/-- Modelled from the spec: the storage state the Ingestion Router acts on
(the backend router code backend/app/opcua/connector.py is not in this
source tree). Machines are keyed by routing tag, sensors by alias with
their owning machine tag; rows are kept newest first, matching the
per-sensor in-order persistence guarantee. -/
structure Storage where
  machines : List String
  sensors : List (String × String)
  rows : List Row
deriving DecidableEq, Repr

/-- The empty storage state before any sample is routed. -/
def emptyStorage : Storage := { machines := [], sensors := [], rows := [] }

/-- Modelled from the spec: get-or-create Machine for a routing tag; a
machine row is created only when none with that tag exists. -/
def getOrCreateMachine (st : Storage) (tag : String) : Storage :=
  if tag ∈ st.machines then st
  else { st with machines := tag :: st.machines }

/-- Modelled from the spec: get-or-create Sensor for an alias, associated
with the machine's routing tag; created only when no sensor with that alias
exists. -/
def getOrCreateSensor (st : Storage) (a tag : String) : Storage :=
  if a ∈ st.sensors.map Prod.fst then st
  else { st with sensors := (a, tag) :: st.sensors }

/-- The timestamp of the most recently stored sample for a sensor, if any
(rows are newest first). -/
def latestTimestamp (st : Storage) (a : String) : Option ℕ :=
  (st.rows.find? (fun r => r.sensorAlias == a)).map Row.ts

/-- Result of one route call: the deduplication no-op, a stored sample, or
a storage failure while inserting. -/
inductive RouteResult
  | noopDuplicate
  | stored
  | storageError
deriving DecidableEq, Repr

/-- Inserts a sample row at the front of the row log. -/
def insertRow (st : Storage) (a : String) (v : ℚ) (ts : ℕ) : Storage :=
  { st with rows := { sensorAlias := a, value := v, ts := ts } :: st.rows }

/-- Modelled from the spec: route(source, node, sample). Ensures the machine
for the routing tag and the sensor for the alias exist, then deduplicates:
if the most recently stored sample for this sensor has an equal-or-later
timestamp the sample is discarded with a no-op result; otherwise the sample
is persisted (the insertOk flag models the storage layer accepting or
failing the insert). -/
def route (st : Storage) (tag a : String) (v : ℚ) (ts : ℕ) (insertOk : Bool) :
    Storage × RouteResult :=
  let st1 := getOrCreateMachine st tag
  let st2 := getOrCreateSensor st1 a tag
  match latestTimestamp st2 a with
  | some t =>
    if ts ≤ t then (st2, RouteResult.noopDuplicate)
    else if insertOk then (insertRow st2 a v ts, RouteResult.stored)
    else (st2, RouteResult.storageError)
  | none =>
    if insertOk then (insertRow st2 a v ts, RouteResult.stored)
    else (st2, RouteResult.storageError)

/-- Number of stored rows for a given sensor alias. -/
def rowCount (st : Storage) (a : String) : ℕ :=
  (st.rows.filter (fun r => r.sensorAlias == a)).length

/-- One route call recorded in a history: routing tag, alias, value,
timestamp, and whether the storage insert would succeed. -/
structure RouteOp where
  tag : String
  sensorAlias : String
  value : ℚ
  ts : ℕ
  insertOk : Bool

/-- Runs a history of route calls from the empty storage. Concurrent
first-arrivals are modelled as an arbitrary interleaving, i.e. an arbitrary
sequence of atomic get-or-create steps, matching the spec's requirement that
creation is serialized per key. -/
def runOps (ops : List RouteOp) : Storage :=
  ops.foldl
    (fun st o => (route st o.tag o.sensorAlias o.value o.ts o.insertOk).1)
    emptyStorage

lemma rows_getOrCreateMachine (st : Storage) (tag : String) :
    (getOrCreateMachine st tag).rows = st.rows := by
  unfold getOrCreateMachine
  split <;> rfl

lemma rows_getOrCreateSensor (st : Storage) (a tag : String) :
    (getOrCreateSensor st a tag).rows = st.rows := by
  unfold getOrCreateSensor
  split <;> rfl

lemma latestTimestamp_rows_only (st st2 : Storage) (a : String)
    (h : st2.rows = st.rows) : latestTimestamp st2 a = latestTimestamp st a := by
  unfold latestTimestamp
  rw [h]

lemma machines_nodup_getOrCreateMachine {st : Storage} (tag : String)
    (h : st.machines.Nodup) : (getOrCreateMachine st tag).machines.Nodup := by
  unfold getOrCreateMachine
  split
  · exact h
  · exact List.nodup_cons.mpr ⟨by assumption, h⟩

lemma sensors_nodup_getOrCreateSensor {st : Storage} (a tag : String)
    (h : (st.sensors.map Prod.fst).Nodup) :
    ((getOrCreateSensor st a tag).sensors.map Prod.fst).Nodup := by
  unfold getOrCreateSensor
  split
  · exact h
  · simp only [List.map_cons]
    exact List.nodup_cons.mpr ⟨by assumption, h⟩

lemma machines_getOrCreateSensor (st : Storage) (a tag : String) :
    (getOrCreateSensor st a tag).machines = st.machines := by
  unfold getOrCreateSensor
  split <;> rfl

lemma sensors_getOrCreateMachine (st : Storage) (tag : String) :
    (getOrCreateMachine st tag).sensors = st.sensors := by
  unfold getOrCreateMachine
  split <;> rfl

lemma route_preserves_nodup {st : Storage} (tag a : String) (v : ℚ) (ts : ℕ)
    (insertOk : Bool)
    (hm : st.machines.Nodup) (hs : (st.sensors.map Prod.fst).Nodup) :
    (route st tag a v ts insertOk).1.machines.Nodup ∧
      (((route st tag a v ts insertOk).1.sensors.map Prod.fst)).Nodup := by
  unfold route
  have hm2 : (getOrCreateSensor (getOrCreateMachine st tag) a tag).machines.Nodup := by
    rw [machines_getOrCreateSensor]
    exact machines_nodup_getOrCreateMachine tag hm
  have hs2 :
      ((getOrCreateSensor (getOrCreateMachine st tag) a tag).sensors.map Prod.fst).Nodup := by
    apply sensors_nodup_getOrCreateSensor
    rw [sensors_getOrCreateMachine]
    exact hs
  cases hlt : latestTimestamp (getOrCreateSensor (getOrCreateMachine st tag) a tag) a with
  | some t =>
    simp only [hlt]
    split
    · exact ⟨hm2, hs2⟩
    · split
      · exact ⟨hm2, hs2⟩
      · exact ⟨hm2, hs2⟩
  | none =>
    simp only [hlt]
    split
    · exact ⟨hm2, hs2⟩
    · exact ⟨hm2, hs2⟩

end Router

namespace Bridge

/-- Status of a detection verdict: normal, warning, critical, or buffering. -/
inductive VStatus
  | normal
  | warning
  | critical
  | buffering
deriving DecidableEq, Repr

/-- Node metadata the Bridge uses for the threshold fallback: alias, unit,
category, and the node's declared min and max. -/
structure BNodeCfg where
  aliasName : String
  unit : String
  category : String
  min : ℚ
  max : ℚ
deriving DecidableEq, Repr

/-- A detection verdict as returned by the AI scorer or the fallback rule:
prediction label, status, score, confidence, anomaly type, remaining useful
life. -/
structure Verdict where
  prediction : String
  status : VStatus
  score : ℚ
  confidence : ℚ
  anomalyType : String
  rul : ℚ
deriving DecidableEq, Repr

/-- The anomaly types the model-based scorer can report, per the AI service
documentation: NORMAL, WARNING, CRITICAL or BASELINE. -/
def modelAnomalyTypes : List String := ["NORMAL", "WARNING", "CRITICAL", "BASELINE"]

/-- Modelled from the spec: the static threshold rule evaluated directly on
the raw sample value against the node's declared min and max (warning from
70 percent of the range, critical from 90 percent, as the rule-based
thresholds documented for the dashboard meters). -/
def thresholdStatus (mn mx v : ℚ) : VStatus :=
  if 90 / 100 * (mx - mn) ≤ v - mn then VStatus.critical
  else if 70 / 100 * (mx - mn) ≤ v - mn then VStatus.warning
  else VStatus.normal

/-- Modelled from the spec: the degraded verdict produced when the scorer is
unreachable or errors: threshold status on the raw value, confidence 0, and
a distinct anomaly type marking it as threshold-based. -/
def fallbackVerdict (node : BNodeCfg) (v : ℚ) : Verdict :=
  { prediction := "threshold"
    status := thresholdStatus node.min node.max v
    score := 0
    confidence := 0
    anomalyType := "THRESHOLD_RULE"
    rul := 100 }

/-- Fixed capacity of the per-sensor sliding window. -/
def windowCapacity : ℕ := 60

/-- Minimum number of buffered samples before a prediction is made. -/
def minSamples : ℕ := 12

/-- Per-sensor state of the Detection Bridge: the sliding window plus the
append-only Prediction and Alarm records it has persisted. -/
structure BridgeState where
  window : List ℚ
  predictions : List Verdict
  alarms : List Verdict
deriving DecidableEq, Repr

/-- Bridge state before any sample was observed for the sensor. -/
def initB : BridgeState := { window := [], predictions := [], alarms := [] }

/-- Appends a value to the sliding window, evicting the oldest entry when
the window is at its fixed capacity of 60. -/
def pushWindow (w : List ℚ) (v : ℚ) : List ℚ :=
  if windowCapacity ≤ w.length then w.tail ++ [v] else w ++ [v]

/-- Whether a verdict status creates an Alarm (warning or critical). -/
def isAlarmStatus : VStatus → Bool
  | VStatus.warning => true
  | VStatus.critical => true
  | _ => false

/-- What one observe call reports back: still buffering, or a scored
verdict. -/
inductive ObserveResult
  | buffering
  | scored (v : Verdict)
deriving DecidableEq, Repr

/-- Modelled from the spec: the verdict used once the window is full enough:
the external scorer's answer when it responds, and the threshold fallback on
the raw sample value when the scorer is unreachable or errors. -/
def verdictFor (node : BNodeCfg) (scorer : List ℚ → Except String Verdict)
    (w : List ℚ) (v : ℚ) : Verdict :=
  match scorer w with
  | Except.ok verdict => verdict
  | Except.error _ => fallbackVerdict node v

/-- Modelled from the spec: observe(sensorId, sample). Appends the value to
the window; with fewer than 12 samples buffered it reports buffering and
performs no further action; otherwise it forwards the window to the scorer
(falling back to the threshold rule on scorer failure), always persists a
Prediction, and persists an Alarm when the status is warning or critical.
The function is total: a scorer failure is absorbed into the fallback and
never escapes the Bridge. -/
def observe (node : BNodeCfg) (scorer : List ℚ → Except String Verdict)
    (st : BridgeState) (v : ℚ) : BridgeState × ObserveResult :=
  let w := pushWindow st.window v
  if w.length < minSamples then
    ({ st with window := w }, ObserveResult.buffering)
  else
    let verdict := verdictFor node scorer w v
    ({ window := w
       predictions := st.predictions ++ [verdict]
       alarms := st.alarms ++ (if isAlarmStatus verdict.status then [verdict] else []) },
     ObserveResult.scored verdict)

/-- Feeds a list of samples through the Bridge one by one, collecting the
per-call results. -/
def runObserve (node : BNodeCfg) (scorer : List ℚ → Except String Verdict) :
    BridgeState → List ℚ → BridgeState × List ObserveResult
  | st, [] => (st, [])
  | st, v :: vs =>
    let p := observe node scorer st v
    let rest := runObserve node scorer p.1 vs
    (rest.1, p.2 :: rest.2)

lemma observe_buffering (node : BNodeCfg) (scorer : List ℚ → Except String Verdict)
    (st : BridgeState) (v : ℚ) (h : st.window.length + 1 < minSamples) :
    observe node scorer st v =
      ({ st with window := st.window ++ [v] }, ObserveResult.buffering) := by
  have hcap : ¬ windowCapacity ≤ st.window.length := by
    unfold minSamples at h
    unfold windowCapacity
    omega
  have hw : pushWindow st.window v = st.window ++ [v] := by
    unfold pushWindow
    rw [if_neg hcap]
  unfold observe
  simp only [hw]
  rw [if_pos]
  simp only [List.length_append, List.length_singleton]
  exact h

lemma runObserve_buffering (node : BNodeCfg) (scorer : List ℚ → Except String Verdict) :
    ∀ (vs : List ℚ) (st : BridgeState),
      st.window.length + vs.length < minSamples →
      runObserve node scorer st vs =
        ({ st with window := st.window ++ vs },
          List.replicate vs.length ObserveResult.buffering) := by
  intro vs
  induction vs with
  | nil =>
    intro st _
    simp [runObserve]
  | cons v vs ih =>
    intro st h
    have h1 : st.window.length + 1 < minSamples := by
      simp only [List.length_cons] at h
      omega
    have hstep := observe_buffering node scorer st v h1
    have h2 : (st.window ++ [v]).length + vs.length < minSamples := by
      simp only [List.length_append, List.length_cons, List.length_nil] at *
      omega
    simp only [runObserve, hstep]
    rw [ih { st with window := st.window ++ [v] } h2]
    simp [List.append_assoc, List.replicate_succ]

lemma runObserve_append (node : BNodeCfg) (scorer : List ℚ → Except String Verdict) :
    ∀ (xs ys : List ℚ) (st : BridgeState),
      runObserve node scorer st (xs ++ ys) =
        ((runObserve node scorer (runObserve node scorer st xs).1 ys).1,
          (runObserve node scorer st xs).2 ++
            (runObserve node scorer (runObserve node scorer st xs).1 ys).2) := by
  intro xs
  induction xs with
  | nil =>
    intro ys st
    simp [runObserve]
  | cons x xs ih =>
    intro ys st
    simp only [List.cons_append, runObserve, List.append_eq]
    rw [ih ys (observe node scorer st x).1]

end Bridge

namespace Registry

/-- A registered telemetry source entry as held by the Source Registry. -/
structure RSource where
  id : ℕ
  name : String
  endpointUrl : String
  nodeCount : ℕ
  active : Bool
deriving DecidableEq, Repr

/-- The in-memory Source Registry: the catalog of configured sources. -/
structure RegistryState where
  sources : List RSource
deriving DecidableEq, Repr

/-- A previewed sample returned by a test read. -/
structure PSample where
  sensorAlias : String
  value : ℚ
  ts : ℕ
deriving DecidableEq, Repr

/-- Outcome of the one-shot connection attempt made by a test: either the
session opened and the nodes were read into a preview, or the connection
failed with an error message. -/
inductive ConnOutcome
  | success (preview : List PSample)
  | failure (err : String)
deriving DecidableEq, Repr

/-- The response shape of testSource: ok flag, handshake log, sample
preview, optional error. -/
structure TestReport where
  ok : Bool
  handshakeLog : List String
  samplePreview : List PSample
  error : Option String
deriving DecidableEq, Repr

/-- Modelled from the spec: testSource(config) performs a one-shot
connect-read-disconnect cycle against the configured endpoint (the backend
router backend/app/api/routers/opcua.py is not in this source tree) and
returns ok, the handshake log, the sample preview and an optional error,
without registering the source or touching the Registry. -/
def testSource (reg : RegistryState) (cfg : RSource) (outcome : ConnOutcome) :
    RegistryState × TestReport :=
  match outcome with
  | ConnOutcome.success preview =>
    (reg,
      { ok := true
        handshakeLog :=
          ["connecting to " ++ cfg.endpointUrl, "session established",
            "read " ++ toString preview.length ++ " values", "disconnected"]
        samplePreview := preview
        error := none })
  | ConnOutcome.failure err =>
    (reg,
      { ok := false
        handshakeLog := ["connecting to " ++ cfg.endpointUrl, "connection failed"]
        samplePreview := []
        error := some err })

end Registry

namespace Worker

/-- Report of one poll cycle over a source's node list: the samples routed
(one per successful node read), the nodes whose read failed, and whether the
heartbeat was updated. -/
structure CycleReport where
  routed : List (Bridge.BNodeCfg × ℚ)
  failed : List Bridge.BNodeCfg
  heartbeatUpdated : Bool
deriving DecidableEq, Repr

/-- Modelled from the spec: one Polling-state cycle of the Connector Worker
(backend/app/opcua/connector.py is not in this source tree). Every node is
read sequentially; a read failure for one node is recorded but the cycle
continues with the remaining nodes; every successful read is routed; the
heartbeat is updated when at least one node succeeded. -/
def pollCycle (nodes : List Bridge.BNodeCfg) (readFn : Bridge.BNodeCfg → Option ℚ) :
    CycleReport :=
  { routed := nodes.filterMap (fun n => (readFn n).map (fun v => (n, v)))
    failed := nodes.filter (fun n => (readFn n).isNone)
    heartbeatUpdated := nodes.any (fun n => (readFn n).isSome) }

/-- A source as seen by the scheduling loop: id, configured polling interval
in seconds, active flag. -/
structure WSource where
  id : ℕ
  intervalSec : ℕ
  active : Bool
deriving DecidableEq, Repr

/-- Shallow embedding of the _run loop quoted in
src/OPCUA_IMPLEMENTATION_FLOW.md: while running, poll every active source
once, then sleep one second. Each loop iteration is one sweep at times
0, 1, 2, ...; the events list records, per sweep, one poll of every active
source. The sweep cadence does not read any per-source interval, and a
failed poll is simply attempted again on the next sweep. -/
def pollEvents (sources : List WSource) (ticks : ℕ) : List (ℕ × ℕ) :=
  (List.range ticks).flatMap
    (fun t => (sources.filter (fun s => s.active)).map (fun s => (t, s.id)))

/-- The times at which a given source id is polled by the _run loop within
the first `ticks` seconds. -/
def pollTimesOf (sources : List WSource) (ticks : ℕ) (sid : ℕ) : List ℕ :=
  (pollEvents sources ticks).filterMap
    (fun p => if p.2 = sid then some p.1 else none)

/-- The schedule the claim describes, following its words: one poll cycle
per the source's configured polling interval, so polls happen exactly at the
multiples of intervalSec. -/
def claimedPollTimes (s : WSource) (ticks : ℕ) : List ℕ :=
  (List.range ticks).filter (fun t => t % s.intervalSec = 0)

lemma filterMap_id_match (sid t : ℕ) :
    ∀ l : List WSource,
      l.filterMap (fun s2 => if s2.id = sid then some t else none) =
        List.replicate (l.countP (fun s2 => s2.id == sid)) t := by
  intro l
  induction l with
  | nil => simp
  | cons x xs ih =>
    by_cases hx : x.id = sid
    · simp [List.filterMap_cons, List.countP_cons, ih, hx, List.replicate_succ]
    · simp [List.filterMap_cons, List.countP_cons, ih, hx]

lemma countP_id_active_eq_one {sources : List WSource} {s : WSource}
    (hn : (sources.map WSource.id).Nodup) (hmem : s ∈ sources) (ha : s.active = true) :
    sources.countP (fun s2 => s2.id == s.id && s2.active) = 1 := by
  induction sources with
  | nil => cases hmem
  | cons x xs ih =>
    simp only [List.map_cons, List.nodup_cons] at hn
    rw [List.countP_cons]
    rcases List.mem_cons.mp hmem with heq | hmm
    · subst heq
      have hzero : xs.countP (fun s2 => s2.id == s.id && s2.active) = 0 := by
        rw [List.countP_eq_zero]
        intro a haa
        simp only [Bool.and_eq_true, beq_iff_eq]
        rintro ⟨hcontra, -⟩
        exact hn.1 (hcontra ▸ List.mem_map_of_mem WSource.id haa)
      simp [hzero, ha]
    · have hne : x.id ≠ s.id := fun hc => hn.1 (hc ▸ List.mem_map_of_mem WSource.id hmm)
      have hx0 : (x.id == s.id && x.active) = false := by simp [hne]
      simp only [hx0]
      simpa using ih hn.2 hmm

lemma pollTimesOf_eq_range {sources : List WSource} {s : WSource}
    (hn : (sources.map WSource.id).Nodup) (hmem : s ∈ sources) (ha : s.active = true) :
    ∀ ticks : ℕ, pollTimesOf sources ticks s.id = List.range ticks := by
  have hinner : ∀ t : ℕ,
      ((sources.filter (fun s2 => s2.active)).map (fun s2 => (t, s2.id))).filterMap
        (fun p => if p.2 = s.id then some p.1 else none) = [t] := by
    intro t
    rw [List.filterMap_map]
    have hcomp :
        ((fun p : ℕ × ℕ => if p.2 = s.id then some p.1 else none) ∘
          (fun s2 : WSource => (t, s2.id))) =
        (fun s2 : WSource => if s2.id = s.id then some t else none) := by
      funext s2
      rfl
    have hcount :
        (sources.filter (fun s2 => s2.active)).countP (fun s2 => s2.id == s.id) = 1 := by
      rw [List.countP_filter]
      exact countP_id_active_eq_one hn hmem ha
    rw [hcomp, filterMap_id_match s.id t, hcount]
    rfl
  intro ticks
  unfold pollTimesOf pollEvents
  rw [List.filterMap_flatMap]
  have hmapped :
      (List.range ticks).flatMap
        (fun t =>
          ((sources.filter (fun s2 => s2.active)).map (fun s2 => (t, s2.id))).filterMap
            (fun p => if p.2 = s.id then some p.1 else none)) =
      (List.range ticks).flatMap (fun t => [t]) := by
    apply List.flatMap_congr
    intro t _
    exact hinner t
  rw [hmapped]
  simp

end Worker

namespace Bridge

lemma observe_scored (node : BNodeCfg) (scorer : List ℚ → Except String Verdict)
    (st : BridgeState) (v : ℚ)
    (h : minSamples ≤ (pushWindow st.window v).length) :
    observe node scorer st v =
      ({ window := pushWindow st.window v
         predictions :=
           st.predictions ++ [verdictFor node scorer (pushWindow st.window v) v]
         alarms :=
           st.alarms ++
             (if isAlarmStatus (verdictFor node scorer (pushWindow st.window v) v).status
               then [verdictFor node scorer (pushWindow st.window v) v] else []) },
       ObserveResult.scored (verdictFor node scorer (pushWindow st.window v) v)) := by
  simp only [observe]
  rw [if_neg (by omega)]

end Bridge

namespace Wizard

lemma pct90_iff (value mn mx : ℚ) (h : mn < mx) :
    ((90 : ℚ) ≤ (value - mn) / (mx - mn) * 100) ↔ mn + 90 / 100 * (mx - mn) ≤ value := by
  have hd : (0 : ℚ) < mx - mn := by linarith
  rw [div_mul_eq_mul_div, le_div_iff₀ hd]
  constructor <;> intro hh <;> linarith

lemma pct70_iff (value mn mx : ℚ) (h : mn < mx) :
    ((70 : ℚ) ≤ (value - mn) / (mx - mn) * 100) ↔ mn + 70 / 100 * (mx - mn) ≤ value := by
  have hd : (0 : ℚ) < mx - mn := by linarith
  rw [div_mul_eq_mul_div, le_div_iff₀ hd]
  constructor <;> intro hh <;> linarith

/-- The five default node rows the wizard ships with, transcribed from the
initial useState call in OPCUAWizard.tsx. -/
def defaultNodes : List NodeConfig :=
  [{ nodeId := "ns=3;i=1009", aliasName := "opcua_temperature", unit := "°C",
     category := "temperature", min := some 0, max := some 100 },
   { nodeId := "ns=3;i=1010", aliasName := "opcua_vibration", unit := "mm/s",
     category := "vibration", min := some 0, max := some 10 },
   { nodeId := "ns=3;i=1012", aliasName := "opcua_motor_current", unit := "A",
     category := "motor_current", min := some 0, max := some 30 },
   { nodeId := "ns=3;i=1013", aliasName := "opcua_wear_index", unit := "%",
     category := "wear", min := some 0, max := some 100 },
   { nodeId := "ns=3;i=1011", aliasName := "opcua_pressure", unit := "bar",
     category := "pressure", min := some 0, max := some 200 }]

end Wizard

namespace Worker

lemma length_filterMap_eq_countP {α β : Type} (f : α → Option β) :
    ∀ l : List α, (l.filterMap f).length = l.countP (fun a => (f a).isSome) := by
  intro l
  induction l with
  | nil => simp
  | cons x xs ih =>
    cases hx : f x with
    | none => simp [List.filterMap_cons, hx, List.countP_cons, ih]
    | some b => simp [List.filterMap_cons, hx, List.countP_cons, ih]

lemma countP_isSome_add_isNone {α : Type} (f : α → Option ℚ) :
    ∀ l : List α,
      l.countP (fun a => (f a).isSome) + l.countP (fun a => (f a).isNone) = l.length := by
  intro l
  induction l with
  | nil => simp
  | cons x xs ih =>
    cases hx : f x with
    | none => simp [List.countP_cons, hx]; omega
    | some b => simp [List.countP_cons, hx]; omega

lemma routed_length_eq (nodes : List Bridge.BNodeCfg) (readFn : Bridge.BNodeCfg → Option ℚ) :
    (pollCycle nodes readFn).routed.length =
      nodes.countP (fun n => (readFn n).isSome) := by
  unfold pollCycle
  rw [length_filterMap_eq_countP]
  apply List.countP_congr
  intro n _
  cases readFn n <;> rfl

end Worker

/-- A concrete storage state used to witness the deduplication claim: one
machine, one sensor, one stored row with timestamp 10. -/
def routerWitnessState : Router.Storage :=
  { machines := ["OPCUA-Simulation-Machine"]
    sensors := [("opcua_temperature", "OPCUA-Simulation-Machine")]
    rows := [{ sensorAlias := "opcua_temperature", value := 5, ts := 10 }] }

/-- C1: For every sensor, calling route with a sample whose timestamp is
equal to or earlier than the timestamp of the most recently stored sample
for that sensor discards the sample and returns a no-op result (not an
error), leaving the stored rows, and hence the stored row count for that
sensor, unchanged. -/
theorem c1_route_dedup_noop (st : Router.Storage) (tag a : String) (v : ℚ)
    (ts t : ℕ) (insertOk : Bool)
    (hlatest : Router.latestTimestamp st a = some t) (hts : ts ≤ t) :
    (Router.route st tag a v ts insertOk).2 = Router.RouteResult.noopDuplicate ∧
      (Router.route st tag a v ts insertOk).1.rows = st.rows ∧
      Router.rowCount (Router.route st tag a v ts insertOk).1 a =
        Router.rowCount st a := by
  have hrows :
      (Router.getOrCreateSensor (Router.getOrCreateMachine st tag) a tag).rows = st.rows := by
    rw [Router.rows_getOrCreateSensor, Router.rows_getOrCreateMachine]
  have hl2 :
      Router.latestTimestamp
        (Router.getOrCreateSensor (Router.getOrCreateMachine st tag) a tag) a = some t := by
    rw [Router.latestTimestamp_rows_only st
      (Router.getOrCreateSensor (Router.getOrCreateMachine st tag) a tag) a hrows]
    exact hlatest
  have hroute :
      Router.route st tag a v ts insertOk =
        (Router.getOrCreateSensor (Router.getOrCreateMachine st tag) a tag,
          Router.RouteResult.noopDuplicate) := by
    simp only [Router.route, hl2]
    rw [if_pos hts]
  rw [hroute]
  refine ⟨rfl, hrows, ?_⟩
  unfold Router.rowCount
  rw [hrows]

/-- Witness for C1 at a concrete storage state: a second sample for the same
sensor with the same timestamp 10 is discarded as a duplicate. -/
theorem c1_route_dedup_noop_witness :
    (Router.route routerWitnessState "OPCUA-Simulation-Machine" "opcua_temperature"
        7 10 true).2 = Router.RouteResult.noopDuplicate ∧
      (Router.route routerWitnessState "OPCUA-Simulation-Machine" "opcua_temperature"
          7 10 true).1.rows = routerWitnessState.rows ∧
      Router.rowCount
          (Router.route routerWitnessState "OPCUA-Simulation-Machine" "opcua_temperature"
            7 10 true).1 "opcua_temperature" =
        Router.rowCount routerWitnessState "opcua_temperature" :=
  c1_route_dedup_noop routerWitnessState "OPCUA-Simulation-Machine" "opcua_temperature"
    7 10 10 true (by decide) (by decide)

/-- C4: For every reachable storage state, i.e. after every sequence of
route calls (concurrent first-arrivals modelled as arbitrary interleavings
of the per-key serialized get-or-create steps), at most one Machine record
exists per routing tag and at most one Sensor record exists per alias. -/
theorem c4_at_most_one_creation_per_key (ops : List Router.RouteOp) :
    (Router.runOps ops).machines.Nodup ∧
      ((Router.runOps ops).sensors.map Prod.fst).Nodup := by
  suffices h :
      ∀ (l : List Router.RouteOp) (st : Router.Storage),
        st.machines.Nodup → (st.sensors.map Prod.fst).Nodup →
        (l.foldl
            (fun st o => (Router.route st o.tag o.sensorAlias o.value o.ts o.insertOk).1)
            st).machines.Nodup ∧
          ((l.foldl
              (fun st o => (Router.route st o.tag o.sensorAlias o.value o.ts o.insertOk).1)
              st).sensors.map Prod.fst).Nodup by
    exact h ops Router.emptyStorage (by simp [Router.emptyStorage])
      (by simp [Router.emptyStorage])
  intro l
  induction l with
  | nil =>
    intro st hm hs
    exact ⟨hm, hs⟩
  | cons o os ih =>
    intro st hm hs
    have hstep := Router.route_preserves_nodup o.tag o.sensorAlias o.value o.ts o.insertOk hm hs
    exact ih _ hstep.1 hstep.2

/-- C2: For every sensor, starting from a fresh Bridge state, calls 1
through 11 return status buffering and create no Prediction and no Alarm;
the 12th call, once 12 samples are buffered, forwards the window (the 12
values observed so far, in order) to the scorer and persists exactly one
Prediction record. -/
theorem c2_buffering_then_first_prediction (node : Bridge.BNodeCfg)
    (scorer : List ℚ → Except String Bridge.Verdict) :
    (∀ vs : List ℚ, vs.length ≤ 11 →
        Bridge.runObserve node scorer Bridge.initB vs =
          ({ window := vs, predictions := [], alarms := [] },
            List.replicate vs.length Bridge.ObserveResult.buffering)) ∧
      (∀ (us : List ℚ) (v : ℚ), us.length = 11 →
        (Bridge.runObserve node scorer Bridge.initB (us ++ [v])).1.predictions =
            [Bridge.verdictFor node scorer (us ++ [v]) v] ∧
          (Bridge.runObserve node scorer Bridge.initB (us ++ [v])).2 =
            List.replicate 11 Bridge.ObserveResult.buffering ++
              [Bridge.ObserveResult.scored
                (Bridge.verdictFor node scorer (us ++ [v]) v)]) := by
  constructor
  · intro vs hvs
    have h := Bridge.runObserve_buffering node scorer vs Bridge.initB
      (by simp only [Bridge.initB, List.length_nil, Bridge.minSamples]; omega)
    simpa [Bridge.initB] using h
  · intro us v hus
    have hbuf := Bridge.runObserve_buffering node scorer us Bridge.initB
      (by simp only [Bridge.initB, List.length_nil, Bridge.minSamples]; omega)
    have hbuf2 :
        Bridge.runObserve node scorer Bridge.initB us =
          ({ window := us, predictions := [], alarms := [] },
            List.replicate us.length Bridge.ObserveResult.buffering) := by
      simpa [Bridge.initB] using hbuf
    have hpush :
        Bridge.pushWindow us v = us ++ [v] := by
      unfold Bridge.pushWindow
      rw [if_neg]
      unfold Bridge.windowCapacity
      omega
    have hlen :
        Bridge.minSamples ≤
          (Bridge.pushWindow
            ({ window := us, predictions := [], alarms := [] } :
              Bridge.BridgeState).window v).length := by
      show Bridge.minSamples ≤ (Bridge.pushWindow us v).length
      rw [hpush]
      simp only [List.length_append, List.length_cons, List.length_nil, hus,
        Bridge.minSamples]
      omega
    have hsc := Bridge.observe_scored node scorer
      { window := us, predictions := [], alarms := [] } v hlen
    rw [Bridge.runObserve_append node scorer us [v] Bridge.initB, hbuf2]
    have hsingle :
        Bridge.runObserve node scorer
            { window := us, predictions := [], alarms := [] } [v] =
          ((Bridge.observe node scorer
              { window := us, predictions := [], alarms := [] } v).1,
            [(Bridge.observe node scorer
              { window := us, predictions := [], alarms := [] } v).2]) := by
      simp [Bridge.runObserve]
    rw [hsingle, hsc]
    constructor
    · simp [hpush]
    · simp [hus, hpush]

/-- A node configuration used in the Bridge witnesses: the temperature node
with declared range 0 to 100. -/
def bridgeWitnessNode : Bridge.BNodeCfg :=
  { aliasName := "opcua_temperature", unit := "°C", category := "temperature",
    min := 0, max := 100 }

/-- A scorer that is unreachable: every call errors. -/
def downScorer : List ℚ → Except String Bridge.Verdict :=
  fun _ => Except.error "AI service unavailable"

/-- Witness for C2 at a concrete input: eleven readings of 50 then one more
produce exactly one persisted Prediction, with the scorer down so the
verdict is the threshold fallback. -/
theorem c2_buffering_then_first_prediction_witness :
    (Bridge.runObserve bridgeWitnessNode downScorer Bridge.initB
          (List.replicate 11 (50 : ℚ) ++ [50])).1.predictions =
        [Bridge.verdictFor bridgeWitnessNode downScorer
          (List.replicate 11 (50 : ℚ) ++ [50]) 50] ∧
      (Bridge.runObserve bridgeWitnessNode downScorer Bridge.initB
          (List.replicate 11 (50 : ℚ) ++ [50])).2 =
        List.replicate 11 Bridge.ObserveResult.buffering ++
          [Bridge.ObserveResult.scored
            (Bridge.verdictFor bridgeWitnessNode downScorer
              (List.replicate 11 (50 : ℚ) ++ [50]) 50)] :=
  (c2_buffering_then_first_prediction bridgeWitnessNode downScorer).2
    (List.replicate 11 (50 : ℚ)) 50 (by simp)

/-- C3: For every sample, if the external scorer is unreachable or returns
an error, observe still returns a scored verdict produced by the static
threshold rule on the raw sample value against the node's declared min and
max, with confidence 0 and an anomaly type distinct from every model-based
anomaly type; observe is a total function, so no exception passes the
Bridge boundary into the ingestion path. -/
theorem c3_scorer_failure_fallback (node : Bridge.BNodeCfg)
    (scorer : List ℚ → Except String Bridge.Verdict)
    (st : Bridge.BridgeState) (v : ℚ) (e : String)
    (hs : scorer (Bridge.pushWindow st.window v) = Except.error e)
    (hlen : Bridge.minSamples ≤ (Bridge.pushWindow st.window v).length) :
    (Bridge.observe node scorer st v).2 =
        Bridge.ObserveResult.scored (Bridge.fallbackVerdict node v) ∧
      (Bridge.fallbackVerdict node v).confidence = 0 ∧
      (Bridge.fallbackVerdict node v).anomalyType ∉ Bridge.modelAnomalyTypes ∧
      (Bridge.fallbackVerdict node v).status =
        Bridge.thresholdStatus node.min node.max v := by
  have hverdict :
      Bridge.verdictFor node scorer (Bridge.pushWindow st.window v) v =
        Bridge.fallbackVerdict node v := by
    unfold Bridge.verdictFor
    rw [hs]
  refine ⟨?_, rfl, ?_, rfl⟩
  · rw [Bridge.observe_scored node scorer st v hlen, hverdict]
  · simp [Bridge.fallbackVerdict, Bridge.modelAnomalyTypes]

/-- Witness for C3: with eleven samples already buffered and the scorer
down, observing the value 98 yields the threshold fallback verdict. -/
theorem c3_scorer_failure_fallback_witness :
    (Bridge.observe bridgeWitnessNode downScorer
          { window := List.replicate 11 (50 : ℚ), predictions := [], alarms := [] }
          98).2 =
        Bridge.ObserveResult.scored (Bridge.fallbackVerdict bridgeWitnessNode 98) ∧
      (Bridge.fallbackVerdict bridgeWitnessNode 98).confidence = 0 ∧
      (Bridge.fallbackVerdict bridgeWitnessNode 98).anomalyType ∉
        Bridge.modelAnomalyTypes ∧
      (Bridge.fallbackVerdict bridgeWitnessNode 98).status =
        Bridge.thresholdStatus bridgeWitnessNode.min bridgeWitnessNode.max 98 :=
  c3_scorer_failure_fallback bridgeWitnessNode downScorer
    { window := List.replicate 11 (50 : ℚ), predictions := [], alarms := [] }
    98 "AI service unavailable" rfl
    (by simp [Bridge.pushWindow, Bridge.windowCapacity, Bridge.minSamples])

/-- C5: For every registry state, config and connection outcome, testSource
performs its one-shot connect-read-disconnect cycle and returns the report
record (ok, handshake log, sample preview, optional error) while leaving the
Source Registry unchanged: the source is not registered and no existing
entry is modified. -/
theorem c5_testSource_leaves_registry_unchanged (reg : Registry.RegistryState)
    (cfg : Registry.RSource) (outcome : Registry.ConnOutcome) :
    (Registry.testSource reg cfg outcome).1 = reg ∧
      (Registry.testSource reg cfg outcome).1.sources = reg.sources ∧
      (∀ preview, outcome = Registry.ConnOutcome.success preview →
        (Registry.testSource reg cfg outcome).2.ok = true ∧
          (Registry.testSource reg cfg outcome).2.samplePreview = preview ∧
          (Registry.testSource reg cfg outcome).2.error = none) ∧
      (∀ err, outcome = Registry.ConnOutcome.failure err →
        (Registry.testSource reg cfg outcome).2.ok = false ∧
          (Registry.testSource reg cfg outcome).2.error = some err) := by
  cases outcome with
  | success preview =>
    refine ⟨rfl, rfl, ?_, ?_⟩
    · intro pv hpv
      obtain rfl := (Registry.ConnOutcome.success.injEq _ _).mp hpv.symm
      exact ⟨rfl, rfl, rfl⟩
    · intro err herr
      cases herr
  | failure err =>
    refine ⟨rfl, rfl, ?_, ?_⟩
    · intro pv hpv
      cases hpv
    · intro e he
      obtain rfl := (Registry.ConnOutcome.failure.injEq _ _).mp he.symm
      exact ⟨rfl, rfl⟩

/-- Witness for C5: a successful test against an empty registry leaves it
empty and reports ok with the preview. -/
theorem c5_testSource_leaves_registry_unchanged_witness :
    (Registry.testSource { sources := [] }
          { id := 1, name := "OPC UA Source",
            endpointUrl := "opc.tcp://DESKTOP:53530/OPCUA/SimulationServer",
            nodeCount := 5, active := false }
          (Registry.ConnOutcome.success [])).1 = { sources := [] } ∧
      (Registry.testSource { sources := [] }
          { id := 1, name := "OPC UA Source",
            endpointUrl := "opc.tcp://DESKTOP:53530/OPCUA/SimulationServer",
            nodeCount := 5, active := false }
          (Registry.ConnOutcome.success [])).2.ok = true :=
  ⟨(c5_testSource_leaves_registry_unchanged { sources := [] }
      { id := 1, name := "OPC UA Source",
        endpointUrl := "opc.tcp://DESKTOP:53530/OPCUA/SimulationServer",
        nodeCount := 5, active := false }
      (Registry.ConnOutcome.success [])).1,
    ((c5_testSource_leaves_registry_unchanged { sources := [] }
        { id := 1, name := "OPC UA Source",
          endpointUrl := "opc.tcp://DESKTOP:53530/OPCUA/SimulationServer",
          nodeCount := 5, active := false }
        (Registry.ConnOutcome.success [])).2.2.1 [] rfl).1⟩

/-- C6: For every poll cycle over N configured nodes in which exactly one
node read fails and the rest succeed (so at least one node succeeds, N at
least 2), the cycle routes exactly N minus 1 samples, records the one
failure, and still updates the heartbeat. -/
theorem c6_single_read_failure (nodes : List Bridge.BNodeCfg)
    (readFn : Bridge.BNodeCfg → Option ℚ)
    (hfail : nodes.countP (fun n => (readFn n).isNone) = 1)
    (hlen : 2 ≤ nodes.length) :
    (Worker.pollCycle nodes readFn).routed.length = nodes.length - 1 ∧
      (Worker.pollCycle nodes readFn).failed.length = 1 ∧
      (Worker.pollCycle nodes readFn).heartbeatUpdated = true := by
  have hsum := Worker.countP_isSome_add_isNone readFn nodes
  have hsome : nodes.countP (fun n => (readFn n).isSome) = nodes.length - 1 := by
    omega
  refine ⟨?_, ?_, ?_⟩
  · rw [Worker.routed_length_eq, hsome]
  · show (nodes.filter (fun n => (readFn n).isNone)).length = 1
    rw [← List.countP_eq_length_filter]
    exact hfail
  · show nodes.any (fun n => (readFn n).isSome) = true
    have hpos : 0 < nodes.countP (fun n => (readFn n).isSome) := by omega
    rw [List.countP_pos_iff] at hpos
    obtain ⟨x, hx, hpx⟩ := hpos
    rw [List.any_eq_true]
    exact ⟨x, hx, hpx⟩

/-- A second witness node: the vibration node, whose read fails in the C6
witness cycle. -/
def vibrationNode : Bridge.BNodeCfg :=
  { aliasName := "opcua_vibration", unit := "mm/s", category := "vibration",
    min := 0, max := 10 }

/-- A read function for the C6 witness: the vibration node read fails, any
other read returns 42. -/
def oneFailRead : Bridge.BNodeCfg → Option ℚ :=
  fun n => if n.aliasName == "opcua_vibration" then none else some 42

/-- Witness for C6: two nodes, the vibration read fails, one sample is
routed and the heartbeat updates. -/
theorem c6_single_read_failure_witness :
    (Worker.pollCycle [bridgeWitnessNode, vibrationNode] oneFailRead).routed.length =
        [bridgeWitnessNode, vibrationNode].length - 1 ∧
      (Worker.pollCycle [bridgeWitnessNode, vibrationNode] oneFailRead).failed.length = 1 ∧
      (Worker.pollCycle [bridgeWitnessNode, vibrationNode] oneFailRead).heartbeatUpdated =
        true :=
  c6_single_read_failure [bridgeWitnessNode, vibrationNode] oneFailRead
    (by decide) (by decide)

/-- C7 counterexample: the _run loop quoted in
src/OPCUA_IMPLEMENTATION_FLOW.md sweeps all active sources once per fixed
one-second sleep. A source configured with a 2-second polling interval is
polled at times 0 and 1, not only at the multiples of its configured
interval as the claim states, so the claimed per-source schedule is wrong at
this concrete input. -/
theorem c7_fixed_sweep_counterexample :
    Worker.pollTimesOf [{ id := 1, intervalSec := 2, active := true }] 2 1 = [0, 1] ∧
      Worker.claimedPollTimes { id := 1, intervalSec := 2, active := true } 2 = [0] ∧
      Worker.pollTimesOf [{ id := 1, intervalSec := 2, active := true }] 2 1 ≠
        Worker.claimedPollTimes { id := 1, intervalSec := 2, active := true } 2 := by
  refine ⟨by decide, by decide, by decide⟩

/-- C7 as amended: the Worker polls every active source once per fixed
one-second scheduler sweep, regardless of the per-source configured polling
interval, and a failed attempt is simply retried on the next sweep (the
sweep cadence is outcome-independent), with no other delay schedule: over
any horizon the poll times of an active source are exactly 0, 1, ...,
ticks minus 1. -/
theorem c7_amended_fixed_one_second_sweep (sources : List Worker.WSource)
    (s : Worker.WSource) (ticks : ℕ)
    (hn : (sources.map Worker.WSource.id).Nodup)
    (hmem : s ∈ sources) (ha : s.active = true) :
    Worker.pollTimesOf sources ticks s.id = List.range ticks :=
  Worker.pollTimesOf_eq_range hn hmem ha ticks

/-- Witness for the amended C7: two active sources with intervals 2 and 5
are both swept every second; the first is polled at times 0, 1, 2. -/
theorem c7_amended_fixed_one_second_sweep_witness :
    Worker.pollTimesOf
        [{ id := 1, intervalSec := 2, active := true },
          { id := 2, intervalSec := 5, active := true }] 3 1 = List.range 3 :=
  c7_amended_fixed_one_second_sweep
    [{ id := 1, intervalSec := 2, active := true },
      { id := 2, intervalSec := 5, active := true }]
    { id := 1, intervalSec := 2, active := true } 3
    (by decide) (by decide) (by decide)

/-- C8 counterexample: with a degenerate zero-width range (min = max = 0)
and the value 5 above min, JavaScript computes (5 - 0) / 0 * 100 = positive
infinity, which compares greater-or-equal to 90, so getStatusForValue
returns critical, not normal as the claim states. -/
theorem c8_degenerate_range_counterexample :
    Wizard.getStatusForValue
        [{ nodeId := "ns=3;i=1009", aliasName := "opcua_temperature", unit := "°C",
           category := "temperature", min := some 0, max := some 0 }]
        "opcua_temperature" 5 = Wizard.Status.critical ∧
      Wizard.getStatusForValue
        [{ nodeId := "ns=3;i=1009", aliasName := "opcua_temperature", unit := "°C",
           category := "temperature", min := some 0, max := some 0 }]
        "opcua_temperature" 5 ≠ Wizard.Status.normal := by
  have hp : Wizard.jsPercent 5 0 0 = Wizard.JNum.posInf := by
    norm_num [Wizard.jsPercent]
  have hst :
      Wizard.getStatusForValue
          [{ nodeId := "ns=3;i=1009", aliasName := "opcua_temperature", unit := "°C",
             category := "temperature", min := some 0, max := some 0 }]
          "opcua_temperature" 5 = Wizard.Status.critical := by
    simp [Wizard.getStatusForValue, List.find?, hp, Wizard.jGe]
  exact ⟨hst, by rw [hst]; intro hc; cases hc⟩

/-- C8 as amended: getStatusForValue is total and never throws; it returns
normal when the alias has no configured node or min or max is undefined; on
a degenerate zero-width range (max = min) it returns critical when the value
is strictly above min and normal otherwise (JavaScript division by zero);
and for a proper range (min < max) it returns critical iff the value is at
or above 90 percent of the range, warning iff at or above 70 percent and
below 90 percent, and normal iff below 70 percent. -/
theorem c8_amended_status_characterization (nodes : List Wizard.NodeConfig)
    (a : String) (value : ℚ) :
    (nodes.find? (fun n => n.aliasName == a) = none →
        Wizard.getStatusForValue nodes a value = Wizard.Status.normal) ∧
      (∀ node, nodes.find? (fun n => n.aliasName == a) = some node →
        (node.min = none ∨ node.max = none) →
        Wizard.getStatusForValue nodes a value = Wizard.Status.normal) ∧
      (∀ node mn, nodes.find? (fun n => n.aliasName == a) = some node →
        node.min = some mn → node.max = some mn →
        Wizard.getStatusForValue nodes a value =
          (if mn < value then Wizard.Status.critical else Wizard.Status.normal)) ∧
      (∀ node mn mx, nodes.find? (fun n => n.aliasName == a) = some node →
        node.min = some mn → node.max = some mx → mn < mx →
        ((Wizard.getStatusForValue nodes a value = Wizard.Status.critical ↔
            mn + 90 / 100 * (mx - mn) ≤ value) ∧
          (Wizard.getStatusForValue nodes a value = Wizard.Status.warning ↔
            mn + 70 / 100 * (mx - mn) ≤ value ∧
              value < mn + 90 / 100 * (mx - mn)) ∧
          (Wizard.getStatusForValue nodes a value = Wizard.Status.normal ↔
            value < mn + 70 / 100 * (mx - mn)))) := by
  refine ⟨?_, ?_, ?_, ?_⟩
  · intro hfind
    simp [Wizard.getStatusForValue, hfind]
  · intro node hfind hnone
    rcases hnone with hmin | hmax
    · cases hmx2 : node.max with
      | none => simp [Wizard.getStatusForValue, hfind, hmin, hmx2]
      | some mx => simp [Wizard.getStatusForValue, hfind, hmin, hmx2]
    · cases hmn2 : node.min with
      | none => simp [Wizard.getStatusForValue, hfind, hmn2, hmax]
      | some mn => simp [Wizard.getStatusForValue, hfind, hmn2, hmax]
  · intro node mn hfind hmin hmax
    have hform : Wizard.getStatusForValue nodes a value =
        (if Wizard.jGe (Wizard.jsPercent value mn mn) 90 then Wizard.Status.critical
         else if Wizard.jGe (Wizard.jsPercent value mn mn) 70 then Wizard.Status.warning
         else Wizard.Status.normal) := by
      simp [Wizard.getStatusForValue, hfind, hmin, hmax]
    rw [hform]
    by_cases hlt : mn < value
    · have hp : Wizard.jsPercent value mn mn = Wizard.JNum.posInf := by
        simp [Wizard.jsPercent, sub_self, sub_pos.mpr hlt]
      rw [hp]
      simp [Wizard.jGe, hlt]
    · have hnum : ¬ (0 : ℚ) < value - mn := fun hc => hlt (by linarith)
      by_cases hneg : value - mn < 0
      · have hp : Wizard.jsPercent value mn mn = Wizard.JNum.negInf := by
          simp [Wizard.jsPercent, sub_self, hnum, hneg]
        rw [hp]
        simp [Wizard.jGe, hlt]
      · have hp : Wizard.jsPercent value mn mn = Wizard.JNum.nan := by
          simp [Wizard.jsPercent, sub_self, hnum, hneg]
        rw [hp]
        simp [Wizard.jGe, hlt]
  · intro node mn mx hfind hmin hmax hlt
    have hden : (0 : ℚ) < mx - mn := by linarith
    have hne : mx - mn ≠ 0 := ne_of_gt hden
    have hjs : Wizard.jsPercent value mn mx =
        Wizard.JNum.fin ((value - mn) / (mx - mn) * 100) := by
      simp [Wizard.jsPercent, hne]
    have hform : Wizard.getStatusForValue nodes a value =
        (if (90 : ℚ) ≤ (value - mn) / (mx - mn) * 100 then Wizard.Status.critical
         else if (70 : ℚ) ≤ (value - mn) / (mx - mn) * 100 then Wizard.Status.warning
         else Wizard.Status.normal) := by
      simp [Wizard.getStatusForValue, hfind, hmin, hmax, hjs, Wizard.jGe]
    rw [hform]
    have hmono : mn + 70 / 100 * (mx - mn) ≤ mn + 90 / 100 * (mx - mn) := by linarith
    by_cases h90 : (90 : ℚ) ≤ (value - mn) / (mx - mn) * 100
    · have h90t := (Wizard.pct90_iff value mn mx hlt).mp h90
      rw [if_pos h90]
      refine ⟨⟨fun _ => h90t, fun _ => rfl⟩, ?_, ?_⟩
      · refine iff_of_false (fun hc => Wizard.Status.noConfusion hc) ?_
        rintro ⟨-, hc2⟩
        linarith
      · refine iff_of_false (fun hc => Wizard.Status.noConfusion hc) ?_
        intro hc
        linarith
    · have h90f : ¬ mn + 90 / 100 * (mx - mn) ≤ value :=
        fun hc => h90 ((Wizard.pct90_iff value mn mx hlt).mpr hc)
      rw [if_neg h90]
      by_cases h70 : (70 : ℚ) ≤ (value - mn) / (mx - mn) * 100
      · have h70t := (Wizard.pct70_iff value mn mx hlt).mp h70
        rw [if_pos h70]
        refine ⟨?_, ⟨fun _ => ⟨h70t, by linarith [not_le.mp h90f]⟩, fun _ => rfl⟩, ?_⟩
        · refine iff_of_false (fun hc => Wizard.Status.noConfusion hc) h90f
        · refine iff_of_false (fun hc => Wizard.Status.noConfusion hc) ?_
          intro hc
          linarith
      · have h70f : ¬ mn + 70 / 100 * (mx - mn) ≤ value :=
          fun hc => h70 ((Wizard.pct70_iff value mn mx hlt).mpr hc)
        rw [if_neg h70]
        refine ⟨?_, ?_, ⟨fun _ => not_le.mp h70f, fun _ => rfl⟩⟩
        · refine iff_of_false (fun hc => Wizard.Status.noConfusion hc) ?_
          intro hc
          exact h90f (by linarith)
        · refine iff_of_false (fun hc => Wizard.Status.noConfusion hc) ?_
          rintro ⟨hc1, -⟩
          exact h70f hc1

/-- Witness for the amended C8: on the default temperature node (range 0 to
100) the value 95 is classified critical exactly because it is at or above
90 percent of the range. -/
theorem c8_amended_status_characterization_witness :
    Wizard.getStatusForValue Wizard.defaultNodes "opcua_temperature" 95 =
        Wizard.Status.critical ↔ (0 : ℚ) + 90 / 100 * (100 - 0) ≤ 95 :=
  ((c8_amended_status_characterization Wizard.defaultNodes "opcua_temperature" 95).2.2.2
    { nodeId := "ns=3;i=1009", aliasName := "opcua_temperature", unit := "°C",
      category := "temperature", min := some 0, max := some 100 }
    0 100 rfl rfl rfl (by norm_num)).1

/-- C9: In every reachable UI state of the wizard (every event sequence the
enabled-state guards admit from the initial state), an activation request
can only be issued after the most recent test resolved with ok: every
clickActivate in the sequence is preceded by a test response whose ok field
is true, so activation is never requested without a prior successful test
response in the session. -/
theorem c9_activate_requires_successful_test (evs : List Wizard.Event)
    (s2 : Wizard.WizardState)
    (hrun : Wizard.runW Wizard.initState evs = some s2)
    (i : ℕ) (hi : evs[i]? = some Wizard.Event.clickActivate) :
    ∃ (j : ℕ) (r : Wizard.TestResult),
      j < i ∧ evs[j]? = some (Wizard.Event.testResolve r) ∧ r.ok = true :=
  Wizard.runW_activate_needs_prior_ok evs Wizard.initState s2 rfl hrun i hi

/-- Witness for C9: in the admissible session test, success response,
activate, the activate at index 2 is preceded by the successful test
response. -/
theorem c9_activate_requires_successful_test_witness :
    ∃ (j : ℕ) (r : Wizard.TestResult),
      j < 2 ∧
        [Wizard.Event.clickTest,
          Wizard.Event.testResolve { ok := true, logCount := 2, error := none },
          Wizard.Event.clickActivate][j]? =
          some (Wizard.Event.testResolve r) ∧ r.ok = true :=
  c9_activate_requires_successful_test
    [Wizard.Event.clickTest,
      Wizard.Event.testResolve { ok := true, logCount := 2, error := none },
      Wizard.Event.clickActivate]
    { isTesting := false, isActivating := true,
      testResult := some { ok := true, logCount := 2, error := none },
      isConnected := false }
    (by decide) 2 (by decide)

/-- C10: buildPayload emits exactly one payload node per configured node, in
the same order, carrying only node_id, alias, unit and category (empty unit
or category become undefined); the emitted payload node is unchanged under
any change of the node's min and max, which are never included. -/
theorem c10_buildPayload_nodes_shape (nodes : List Wizard.NodeConfig) :
    (Wizard.buildPayloadNodes nodes).length = nodes.length ∧
      (∀ i : ℕ, (Wizard.buildPayloadNodes nodes)[i]? =
        nodes[i]?.map Wizard.toPayloadNode) ∧
      (∀ n : Wizard.NodeConfig,
        (Wizard.toPayloadNode n).node_id = n.nodeId ∧
          (Wizard.toPayloadNode n).aliasName = n.aliasName ∧
          (Wizard.toPayloadNode n).unit =
            (if n.unit = "" then none else some n.unit) ∧
          (Wizard.toPayloadNode n).category =
            (if n.category = "" then none else some n.category)) ∧
      (∀ (n : Wizard.NodeConfig) (mn mx : Option ℚ),
        Wizard.toPayloadNode { n with min := mn, max := mx } =
          Wizard.toPayloadNode n) := by
  refine ⟨by simp [Wizard.buildPayloadNodes], ?_, ?_, ?_⟩
  · intro i
    simp [Wizard.buildPayloadNodes, List.getElem?_map]
  · intro n
    exact ⟨rfl, rfl, rfl, rfl⟩
  · intro n mn mx
    rfl
